import Mathlib

/-!
Verification of the aliyun spot-instance monitor against its specification.

The Go sources are shallowly embedded: each pure decision of the monitor is a
Lean function over explicit inputs, remote calls (ECS status queries, start and
stop commands, traffic queries, notification sends) are supplied as oracle
arguments, and the mutable monitor state (registry, cooldown map, traffic
latches) is threaded explicitly.  Machine integers do not overflow in any of
the modelled paths, so times and counters are Nat and traffic volumes are Rat.
-/

namespace SpotMonitor

/-- A tracked spot instance, mirroring `aliyun.SpotInstance`. -/
structure SpotInstance where
  instanceID : String
  instanceName : String
  regionID : String
  status : String
  publicIPAddress : String
  privateIPAddress : String
  spotStrategy : String
deriving Repr, DecidableEq

/-! ## String containment (strings.Contains), used by the ECS client's
error-swallowing logic. -/

/-- Whether `pat` is a prefix of `s`, on character lists. -/
def charsPrefix : List Char → List Char → Bool
  | [], _ => true
  | _ :: _, [] => false
  | a :: pat, b :: s => a == b && charsPrefix pat s

/-- Whether `pat` occurs as a contiguous substring of `s`, on character lists. -/
def charsContains (pat : List Char) : List Char → Bool
  | [] => pat.isEmpty
  | c :: t => charsPrefix pat (c :: t) || charsContains pat t

/-- Go `strings.Contains s pat`. -/
def strContains (s pat : String) : Bool :=
  charsContains pat.data s.data

/-! ## ECS client: StartInstance / StopInstance (src/internal/aliyun/ecs.go).

The underlying cloud API call is an oracle: `none` means the call succeeded,
`some e` means it failed with error text `e`. -/

/-- `ECSClient.StartInstance`: a failure whose text mentions
`IncorrectInstanceStatus` (instance not in a stoppable state) is swallowed and
reported as success; every other failure is wrapped and returned. -/
def StartInstance (apiErr : Option String) (instanceID : String) : Option String :=
  match apiErr with
  | none => none
  | some e =>
    if strContains e "IncorrectInstanceStatus" then none
    else some ("failed to start instance " ++ instanceID ++ ": " ++ e)

/-- `ECSClient.StopInstance`: same swallowing of `IncorrectInstanceStatus`
(instance not running); the stop mode does not influence error handling. -/
def StopInstance (apiErr : Option String) (instanceID stoppedMode : String) :
    Option String :=
  match apiErr with
  | none => none
  | some e =>
    if strContains e "IncorrectInstanceStatus" then none
    else some ("failed to stop instance " ++ instanceID ++ ": " ++ e)

/-! ## Callback dispatch (monitor.handleCallbackQuery). -/

/-- Go `strings.Split` on a single-character separator, over character lists:
always returns at least one (possibly empty) field. -/
def splitChars (sep : Char) : List Char → List (List Char)
  | [] => [[]]
  | c :: t =>
    let r := splitChars sep t
    if c = sep then [] :: r
    else
      match r with
      | [] => [[c]]
      | h :: t2 => (c :: h) :: t2

/-- Go `strings.Split s sep` for a one-character separator. -/
def splitString (s : String) (sep : Char) : List String :=
  (splitChars sep s.data).map (fun l => String.mk l)

/-- The operations the callback handler can launch; anything else is a silent
no-op returning nil. -/
inductive CBWPAction
  | selectInstance (instanceID : String)
  | bindEip (instanceID bwpID : String)
  | unbindEip (instanceID bwpID : String)
  | backToList
deriving Repr, DecidableEq

/-- Dispatch on the colon-split parts of the callback payload, mirroring the
guards of `handleCallbackQuery`: at least two parts, first part `cbwp`, then a
switch on the action with per-action arity checks; `none` models the paths
that return nil without calling any cloud API or touching monitor state. -/
def dispatchCallback : List String → Option CBWPAction
  | p0 :: p1 :: rest =>
    if p0 = "cbwp" then
      if p1 = "select" then
        match rest with
        | iid :: _ => some (CBWPAction.selectInstance iid)
        | [] => none
      else if p1 = "bind" then
        match rest with
        | iid :: bwp :: _ => some (CBWPAction.bindEip iid bwp)
        | _ => none
      else if p1 = "unbind" then
        match rest with
        | iid :: bwp :: _ => some (CBWPAction.unbindEip iid bwp)
        | _ => none
      else if p1 = "back" then some CBWPAction.backToList
      else none
    else none
  | _ => none

/-- `monitor.handleCallbackQuery`: split the payload on `:` and dispatch. -/
def handleCallbackQuery (data : String) : Option CBWPAction :=
  dispatchCallback (splitString data ':')

/-! ## Discovery and reconciliation (monitor.refreshInstances,
monitor.DiscoverInstances, ECSClient.DiscoverAllSpotInstances). -/

/-- Outbound notifications the monitor can emit through the notifier. -/
inductive Notification
  | monitorStarted (count : Nat) (instanceList : List String)
  | trafficShutdown (region : String) (trafficGB limitGB : ℚ)
      (stopped : List String)
deriving Repr, DecidableEq

/-- Result of one reconciliation pass. -/
structure RefreshResult where
  registry : List SpotInstance
  added : List SpotInstance
  removed : List SpotInstance
  notifs : List Notification
  err : Option String
deriving Repr

/-- `monitor.refreshInstances`: re-discover; on failure return the error and
leave the registry untouched; on success atomically replace the registry with
the discovery result, logging (never notifying) the diff computed by
instance-id set membership against the previous snapshot. -/
def refreshInstances (registry : List SpotInstance)
    (discovery : Except String (List SpotInstance)) : RefreshResult :=
  match discovery with
  | .error e =>
    { registry := registry, added := [], removed := [], notifs := [],
      err := some ("failed to discover instances: " ++ e) }
  | .ok instances =>
    let oldIDs := registry.map (fun i => i.instanceID)
    let newIDs := instances.map (fun i => i.instanceID)
    { registry := instances
      added := instances.filter (fun i => decide (i.instanceID ∉ oldIDs))
      removed := registry.filter (fun i => decide (i.instanceID ∉ newIDs))
      notifs := []
      err := none }

/-- `monitor.DiscoverInstances`: replace the registry and, when a notifier is
configured and the discovery found at least one instance, send one
monitor-started notification listing the fleet (modelled by instance ids). -/
def DiscoverInstances (registry : List SpotInstance)
    (discovery : Except String (List SpotInstance)) (hasNotifier : Bool) :
    List SpotInstance × List Notification × Option String :=
  match discovery with
  | .error e => (registry, [], some ("failed to discover instances: " ++ e))
  | .ok instances =>
    (instances,
     if hasNotifier && decide (0 < instances.length) then
       [Notification.monitorStarted instances.length
          (instances.map (fun i => i.instanceID))]
     else [],
     none)

/-- The registry snapshot the check cycle iterates over: `monitor.Check` first
refreshes and, when refresh fails, logs and proceeds on the cached list. -/
def checkCycleRegistry (registry : List SpotInstance)
    (discovery : Except String (List SpotInstance)) : List SpotInstance :=
  (refreshInstances registry discovery).registry

/-- One region's scan result inside `DiscoverAllSpotInstances`: a failed
region is logged and contributes no instances (the scan is not aborted). -/
def regionInstances (listOf : String → Except String (List SpotInstance))
    (regionID : String) : List SpotInstance :=
  match listOf regionID with
  | .error _ => []
  | .ok l => l

/-- `ECSClient.DiscoverAllSpotInstances`: fan out over all regions and collect
every per-region result (the concurrent completion order is abstracted as
region order; the properties verified below are order-independent). -/
def DiscoverAllSpotInstances (regions : List String)
    (listOf : String → Except String (List SpotInstance)) :
    List SpotInstance :=
  (regions.map (regionInstances listOf)).flatten

/-- Instance ids of a snapshot. -/
def instanceIDs (l : List SpotInstance) : List String :=
  l.map (fun i => i.instanceID)

/-- Modelled from the spec: the process entrypoint that schedules the monitor
is not under src/.  Per the spec it performs one full-fleet discovery at
startup and from then on only periodic check cycles, each reconciling through
`refreshInstances`; every step carries its own discovery outcome. -/
def monitorRun (hasNotifier : Bool) (registry : List SpotInstance)
    (initial : Except String (List SpotInstance))
    (cycles : List (Except String (List SpotInstance))) :
    List SpotInstance × List Notification :=
  let d := DiscoverInstances registry initial hasNotifier
  cycles.foldl
    (fun st disc =>
      let r := refreshInstances st.1 disc
      (r.registry, st.2 ++ r.notifs))
    (d.1, d.2.1)

/-- How many monitor-started notifications a notification list holds. -/
def countMonitorStarted (l : List Notification) : Nat :=
  l.countP (fun n =>
    match n with
    | Notification.monitorStarted _ _ => true
    | _ => false)

/-! ## Traffic budget enforcement (monitor.CheckTraffic,
monitor.shutdownRegionInstances). -/

/-- The two-bucket traffic summary returned by the traffic client. -/
structure TrafficSummary where
  chinaGB : ℚ
  nonChinaGB : ℚ
deriving Repr, DecidableEq

/-- The monitor's two independent shutdown latches. -/
structure TrafficLatchState where
  chinaShutdown : Bool
  nonChinaShutdown : Bool
deriving Repr, DecidableEq

/-- One group's branch of `CheckTraffic`: at or above the budget a clear
latch is set and the bulk shutdown goroutine is launched (second component
true); a set latch stays set launching nothing; below the budget the latch
is cleared (and stays clear). -/
def latchStep (limitGB : ℚ) (latch : Bool) (trafficGB : ℚ) : Bool × Bool :=
  if limitGB ≤ trafficGB then
    if latch then (true, false) else (true, true)
  else (false, false)

/-- `monitor.CheckTraffic` on one successfully queried traffic observation:
the two groups are updated independently under one lock; the two Bool results
record whether this invocation launched a bulk shutdown of the china resp.
non-china group. -/
def CheckTraffic (chinaLimitGB nonChinaLimitGB : ℚ) (s : TrafficLatchState)
    (t : TrafficSummary) : TrafficLatchState × Bool × Bool :=
  let c := latchStep chinaLimitGB s.chinaShutdown t.chinaGB
  let n := latchStep nonChinaLimitGB s.nonChinaShutdown t.nonChinaGB
  (⟨c.1, n.1⟩, c.2, n.2)

/-- A sequence of `CheckTraffic` invocations: final latch state and how many
bulk shutdowns were launched for each group over the sequence. -/
def runCheckTraffic (chinaLimitGB nonChinaLimitGB : ℚ) (s : TrafficLatchState) :
    List TrafficSummary → TrafficLatchState × Nat × Nat
  | [] => (s, 0, 0)
  | t :: ts =>
    let r := CheckTraffic chinaLimitGB nonChinaLimitGB s t
    let rest := runCheckTraffic chinaLimitGB nonChinaLimitGB r.1 ts
    (rest.1, (if r.2.1 then 1 else 0) + rest.2.1,
     (if r.2.2 then 1 else 0) + rest.2.2)

/-- One latch run over raw per-group traffic values, used to factor the two
symmetric groups of `runCheckTraffic`. -/
def runLatch (limitGB : ℚ) (latch : Bool) : List ℚ → Bool × Nat
  | [] => (latch, 0)
  | t :: ts =>
    let r := latchStep limitGB latch t
    let rest := runLatch limitGB r.1 ts
    (rest.1, (if r.2 then 1 else 0) + rest.2)

/-- A stop command issued during bulk shutdown. -/
structure StopCmd where
  regionID : String
  instanceID : String
  stoppedMode : String
deriving Repr, DecidableEq

/-- Environment of the bulk shutdown: the region-group classifier (the
source's IsChinaMainlandRegion helper lives outside src/ and stays abstract),
notifier presence, the per-instance status oracle and the stop-command
outcome oracle (true means the stop call succeeded). -/
structure ShutdownEnv where
  isChinaRegion : String → Bool
  hasNotifier : Bool
  statusOf : String → Except String String
  stopOk : String → Bool

/-- The loop body of `shutdownRegionInstances` over the snapshot: skip
instances outside the group, skip (silently) instances whose status query
fails or whose status is not Running, issue a cost-saving stop to the rest,
and record the ones whose stop call succeeded. -/
def shutdownLoop (env : ShutdownEnv) (region : String) :
    List SpotInstance → List StopCmd × List String
  | [] => ([], [])
  | inst :: rest =>
    let r := shutdownLoop env region rest
    let isChina := env.isChinaRegion inst.regionID
    if (region == "china" && !isChina) || (region == "non-china" && isChina) then
      r
    else
      match env.statusOf inst.instanceID with
      | .error _ => r
      | .ok status =>
        if status ≠ "Running" then r
        else
          let cmd : StopCmd := ⟨inst.regionID, inst.instanceID, "StopCharging"⟩
          if env.stopOk inst.instanceID then
            (cmd :: r.1, inst.instanceID :: r.2)
          else
            (cmd :: r.1, r.2)

/-- `monitor.shutdownRegionInstances`: run the loop over the registry
snapshot and, when a notifier is configured and at least one instance was
actually stopped, send exactly one shutdown notification enumerating the
stopped instances. -/
def shutdownRegionInstances (env : ShutdownEnv)
    (instances : List SpotInstance) (region : String)
    (trafficGB limitGB : ℚ) :
    List StopCmd × List String × List Notification :=
  let r := shutdownLoop env region instances
  (r.1, r.2,
   if env.hasNotifier && decide (0 < r.2.length) then
     [Notification.trafficShutdown region trafficGB limitGB r.2]
   else [])

/-- Whether the loop reaches the stop command for an instance: it is in the
targeted group and its queried status is Running. -/
def shutdownTarget (env : ShutdownEnv) (region : String)
    (inst : SpotInstance) : Bool :=
  !((region == "china" && !env.isChinaRegion inst.regionID) ||
    (region == "non-china" && env.isChinaRegion inst.regionID)) &&
  (match env.statusOf inst.instanceID with
   | .ok status => status == "Running"
   | .error _ => false)

/-! ## Reclaim-and-restart engine (monitor.checkInstance, monitor.canNotify,
monitor.updateNotifyTime). -/

/-- Outcome of one attempt of the start retry loop: the start command fails,
or the start command succeeds but the bounded wait for Running fails
(timeout), or both succeed. -/
inductive AttemptOutcome
  | startFail (e : String)
  | waitFail (e : String)
  | success
deriving Repr, DecidableEq

/-- The error a failed attempt records in lastErr. -/
def attemptErr : AttemptOutcome → Option String
  | AttemptOutcome.startFail e => some e
  | AttemptOutcome.waitFail e => some e
  | AttemptOutcome.success => none

/-- Observable actions of one `checkInstance` call. -/
inductive Event
  | statusQuery
  | reclaimedNotif (sendOk : Bool)
  | startCmd (attempt : Nat)
  | instanceRefreshQuery
  | startedNotif (durationFromRetryStart : Nat)
  | startFailedNotif (retries : Nat) (lastErr : Option String)
deriving Repr, DecidableEq

/-- Configuration and remote-call oracles of one `checkInstance` call: retry
settings and cooldown window from the config, the region-group classifier
(the source's IsChinaMainlandRegion helper lives outside src/ and stays
abstract), notifier presence, the status-query outcome, the delivery outcome
of the reclaimed notification (the code only logs it), the wall-clock time
between the cooldown update and the start of the retry phase, and the
per-attempt outcomes and durations. -/
structure CheckEnv where
  retryCount : Nat
  retryInterval : Nat
  notifyCooldown : Nat
  isChinaRegion : String → Bool
  hasNotifier : Bool
  statusResult : Except String String
  reclaimedSendOk : Bool
  preLoopDuration : Nat
  attempts : Nat → AttemptOutcome
  attemptDuration : Nat → Nat

/-- `monitor.canNotify`: a key with no recorded entry is eligible
immediately; otherwise eligible only when strictly more than the cooldown
window has elapsed since the recorded time. -/
def canNotify (lastNotify : Option Nat) (now cooldown : Nat) : Bool :=
  match lastNotify with
  | none => true
  | some t => decide (cooldown < now - t)

/-- The retry loop of `checkInstance`: `remaining` counts down from the
configured retry count while `i` is the attempt index, `clock` the current
wall-clock time and `startClock` the time the retry phase began (every
attempt after the first sleeps for the retry interval first).  On the first
attempt whose start command and running-wait both succeed, the instance info
is refreshed and one started notification carrying the elapsed retry-phase
time is sent; if every attempt fails, one start-failed notification carrying
the configured retry count and the last error is sent and that error is
returned. -/
def startRetryLoop (env : CheckEnv) (startClock : Nat) :
    Nat → Nat → Nat → Option String → List Event × Option String
  | 0, _, _, lastErr =>
    ((if env.hasNotifier then
        [Event.startFailedNotif env.retryCount lastErr]
      else []),
     lastErr)
  | remaining + 1, i, clock, lastErr =>
    let clock1 := clock + (if 0 < i then env.retryInterval else 0)
    let clock2 := clock1 + env.attemptDuration i
    match env.attempts i with
    | AttemptOutcome.startFail e =>
      let r := startRetryLoop env startClock remaining (i + 1) clock2 (some e)
      (Event.startCmd i :: r.1, r.2)
    | AttemptOutcome.waitFail e =>
      let r := startRetryLoop env startClock remaining (i + 1) clock2 (some e)
      (Event.startCmd i :: r.1, r.2)
    | AttemptOutcome.success =>
      (Event.startCmd i :: Event.instanceRefreshQuery ::
        (if env.hasNotifier then
          [Event.startedNotif (clock2 - startClock)]
        else []),
       none)

/-- `monitor.checkInstance`: skip (before any status query) when the
instance's group latch is set; query status and return on any status other
than Stopped; otherwise gate the reclaimed notification on the cooldown,
recording the cooldown timestamp whenever the cooldown allows (before the
retry loop, whatever the delivery outcome), and run the start retry loop.
Returns the events, the error result, and the updated cooldown entry. -/
def checkInstance (env : CheckEnv) (inst : SpotInstance)
    (latch : TrafficLatchState) (lastNotify : Option Nat) (now : Nat) :
    List Event × Option String × Option Nat :=
  let isChina := env.isChinaRegion inst.regionID
  let blocked := (isChina && latch.chinaShutdown) ||
    (!isChina && latch.nonChinaShutdown)
  if blocked then ([], none, lastNotify)
  else
    match env.statusResult with
    | Except.error e =>
      ([Event.statusQuery], some ("failed to get status: " ++ e), lastNotify)
    | Except.ok status =>
      if status ≠ "Stopped" then ([Event.statusQuery], none, lastNotify)
      else
        let allowed := canNotify lastNotify now env.notifyCooldown
        let preEvents := Event.statusQuery ::
          (if allowed && env.hasNotifier then
            [Event.reclaimedNotif env.reclaimedSendOk]
          else [])
        let lastNotify1 := if allowed then some now else lastNotify
        let startClock := now + env.preLoopDuration
        let r := startRetryLoop env startClock env.retryCount 0 startClock none
        (preEvents ++ r.1, r.2, lastNotify1)

/-- Number of start commands in an event list. -/
def countStartCmds : List Event → Nat
  | [] => 0
  | Event.startCmd _ :: t => countStartCmds t + 1
  | _ :: t => countStartCmds t

/-- Number of started notifications in an event list. -/
def countStartedNotifs : List Event → Nat
  | [] => 0
  | Event.startedNotif _ :: t => countStartedNotifs t + 1
  | _ :: t => countStartedNotifs t

/-- Number of start-failed notifications in an event list. -/
def countStartFailedNotifs : List Event → Nat
  | [] => 0
  | Event.startFailedNotif _ _ :: t => countStartFailedNotifs t + 1
  | _ :: t => countStartFailedNotifs t

/-- Number of reclaimed notifications in an event list. -/
def countReclaimedNotifs : List Event → Nat
  | [] => 0
  | Event.reclaimedNotif _ :: t => countReclaimedNotifs t + 1
  | _ :: t => countReclaimedNotifs t

/-- Total retry-phase time of the first `k` attempts starting at attempt
index `i`: the inter-retry sleeps plus each attempt's own duration. -/
def loopElapsed (env : CheckEnv) : Nat → Nat → Nat
  | _, 0 => 0
  | i, k + 1 =>
    (if 0 < i then env.retryInterval else 0) + env.attemptDuration i +
      loopElapsed env (i + 1) k

/-- Concrete check environment of the C2 scenario: three retries, the start
command fails twice, then start and running-wait succeed. -/
def checkEnvW : CheckEnv :=
  ⟨3, 5, 300, fun _ => false, true, Except.ok "Stopped", true, 2,
   fun i => if i < 2 then AttemptOutcome.startFail "incorrect"
            else AttemptOutcome.success,
   fun _ => 1⟩

/-- A check environment whose status query reports Running. -/
def checkEnvRunning : CheckEnv :=
  ⟨3, 5, 300, fun _ => false, true, Except.ok "Running", true, 2,
   fun _ => AttemptOutcome.success, fun _ => 1⟩

/-- A check environment in which every start attempt fails. -/
def checkEnvFail : CheckEnv :=
  ⟨2, 5, 300, fun _ => false, true, Except.ok "Stopped", true, 2,
   fun _ => AttemptOutcome.startFail "throttled", fun _ => 1⟩

/-- Concrete instance A used in closed instantiations. -/
def instA : SpotInstance :=
  ⟨"i-A", "alpha", "cn-hangzhou", "Running", "1.2.3.4", "10.0.0.1", "SpotAsPriceGo"⟩

/-- Concrete instance B used in closed instantiations. -/
def instB : SpotInstance :=
  ⟨"i-B", "beta", "us-west-1", "Running", "1.2.3.5", "10.0.0.2", "SpotAsPriceGo"⟩

/-- Concrete instance C used in closed instantiations. -/
def instC : SpotInstance :=
  ⟨"i-C", "gamma", "ap-southeast-1", "Stopped", "", "10.0.0.3", "SpotAsPriceGo"⟩

/-- The concrete instance of the C6 scenario. -/
def inst001 : SpotInstance :=
  ⟨"i-001", "web", "cn-hangzhou", "Running", "1.2.3.9", "10.0.0.9",
   "SpotAsPriceGo"⟩

/-- The concrete shutdown environment of the C6 scenario. -/
def shutdownEnvW : ShutdownEnv :=
  ⟨fun r => r == "cn-hangzhou", true, fun _ => Except.ok "Running",
   fun _ => true⟩

/-! ### Claim C8 -/

/-- C8: starting an instance that is not in a stoppable state is a non-error
no-op: an `IncorrectInstanceStatus` API failure makes `StartInstance` return
nil instead of an error, `StopInstance` likewise swallows it when the instance
is not running, and every other API failure is returned as an error. -/
theorem start_stop_state_conflict_swallowed (apiErr : Option String)
    (iid mode : String) :
    (∀ e, apiErr = some e → strContains e "IncorrectInstanceStatus" = true →
      StartInstance apiErr iid = none ∧ StopInstance apiErr iid mode = none) ∧
    (StartInstance none iid = none ∧ StopInstance none iid mode = none) ∧
    (∀ e, apiErr = some e → strContains e "IncorrectInstanceStatus" = false →
      StartInstance apiErr iid =
        some ("failed to start instance " ++ iid ++ ": " ++ e) ∧
      StopInstance apiErr iid mode =
        some ("failed to stop instance " ++ iid ++ ": " ++ e)) := by
  refine ⟨?_, ⟨rfl, rfl⟩, ?_⟩
  · intro e he hc
    subst he
    simp [StartInstance, StopInstance, hc]
  · intro e he hc
    subst he
    simp [StartInstance, StopInstance, hc]

/-- Closed instantiation of C8 at concrete error strings. -/
theorem start_stop_state_conflict_swallowed_witness :
    StartInstance (some "SDK.ServerError IncorrectInstanceStatus code") "i-1" =
      none ∧
    StopInstance (some "network timeout") "i-1" "StopCharging" =
      some "failed to stop instance i-1: network timeout" := by
  constructor
  · exact ((start_stop_state_conflict_swallowed
      (some "SDK.ServerError IncorrectInstanceStatus code") "i-1" "StopCharging").1
      _ rfl (by decide)).1
  · exact ((start_stop_state_conflict_swallowed
      (some "network timeout") "i-1" "StopCharging").2.2
      _ rfl (by decide)).2

/-! ### Claim C10 -/

/-- C10: every malformed callback payload (does not begin with `cbwp`, fewer
than two colon-separated parts, unknown action, or missing arguments: fewer
than 3 parts for `select`, fewer than 4 for `bind`/`unbind`) is dispatched to
`none`, i.e. `handleCallbackQuery` returns nil without invoking any cloud API
or mutating monitor state. -/
theorem handleCallbackQuery_malformed_noop (data : String)
    (h : (splitString data ':').length < 2 ∨
         (splitString data ':').get? 0 ≠ some "cbwp" ∨
         ((splitString data ':').get? 1 ≠ some "select" ∧
          (splitString data ':').get? 1 ≠ some "bind" ∧
          (splitString data ':').get? 1 ≠ some "unbind" ∧
          (splitString data ':').get? 1 ≠ some "back") ∨
         ((splitString data ':').get? 1 = some "select" ∧
          (splitString data ':').length < 3) ∨
         (((splitString data ':').get? 1 = some "bind" ∨
           (splitString data ':').get? 1 = some "unbind") ∧
          (splitString data ':').length < 4)) :
    handleCallbackQuery data = none := by
  unfold handleCallbackQuery
  generalize hp : splitString data ':' = parts at h
  match parts, h with
  | [], _ => rfl
  | [p0], _ => rfl
  | p0 :: p1 :: rest, h =>
    by_cases hp0 : p0 = "cbwp"
    · subst hp0
      simp only [List.length_cons, List.get?_cons_zero, List.get?_cons_succ,
        ne_eq, Option.some_inj] at h
      rcases h with h | h | h | h | h
      · omega
      · exact absurd trivial h
      · obtain ⟨h1, h2, h3, h4⟩ := h
        simp [dispatchCallback, h1, h2, h3, h4]
      · obtain ⟨h1, h2⟩ := h
        subst h1
        match rest, h2 with
        | [], _ => rfl
      · obtain ⟨h1, h2⟩ := h
        match rest, h2 with
        | [], _ =>
          rcases h1 with h1 | h1 <;> subst h1 <;> rfl
        | [x], _ =>
          rcases h1 with h1 | h1 <;> subst h1 <;> rfl
        | _ :: _ :: _, hlen =>
          simp only [List.length_cons] at hlen
          omega
    · simp [dispatchCallback, hp0]

/-- Closed instantiation of C10: an unknown action and a `bind` with missing
arguments are both no-ops. -/
theorem handleCallbackQuery_malformed_noop_witness :
    handleCallbackQuery "cbwp:frobnicate:i-1" = none ∧
    handleCallbackQuery "cbwp:bind:i-1" = none := by
  constructor
  · exact handleCallbackQuery_malformed_noop "cbwp:frobnicate:i-1"
      (Or.inr (Or.inr (Or.inl (by decide))))
  · exact handleCallbackQuery_malformed_noop "cbwp:bind:i-1"
      (Or.inr (Or.inr (Or.inr (Or.inr (by decide)))))

/-! ### Claim C5 -/

/-- C5: refreshInstances is atomic with respect to the registry: on a
successful discovery the registry afterwards equals exactly the discovered
set and the diff is logged by instance-id membership (an old instance absent
from the new set is removed, a new one absent from the old set is added); on
a failed discovery the error is returned, the registry is unchanged, and the
check cycle proceeds on the previous snapshot. -/
theorem refreshInstances_atomic (registry newList : List SpotInstance)
    (e : String) :
    (refreshInstances registry (Except.ok newList)).registry = newList ∧
    (refreshInstances registry (Except.ok newList)).err = none ∧
    (∀ i, i ∈ (refreshInstances registry (Except.ok newList)).added ↔
       i ∈ newList ∧ i.instanceID ∉ instanceIDs registry) ∧
    (∀ i, i ∈ (refreshInstances registry (Except.ok newList)).removed ↔
       i ∈ registry ∧ i.instanceID ∉ instanceIDs newList) ∧
    (refreshInstances registry (Except.error e)).registry = registry ∧
    (refreshInstances registry (Except.error e)).err =
      some ("failed to discover instances: " ++ e) ∧
    checkCycleRegistry registry (Except.error e) = registry := by
  refine ⟨rfl, rfl, ?_, ?_, rfl, rfl, rfl⟩ <;> intro i <;>
    simp [refreshInstances, instanceIDs, List.mem_filter]

/-- Closed instantiation of C5: old set A,B and new set A,C give registry
A,C with B removed and C added. -/
theorem refreshInstances_atomic_witness :
    (refreshInstances [instA, instB] (Except.ok [instA, instC])).registry =
      [instA, instC] ∧
    instB ∈ (refreshInstances [instA, instB] (Except.ok [instA, instC])).removed ∧
    instC ∈ (refreshInstances [instA, instB] (Except.ok [instA, instC])).added ∧
    instA ∉ (refreshInstances [instA, instB] (Except.ok [instA, instC])).removed ∧
    (refreshInstances [instA, instB] (Except.error "boom")).registry =
      [instA, instB] := by
  have h := refreshInstances_atomic [instA, instB] [instA, instC] "boom"
  refine ⟨h.1, ?_, ?_, ?_, h.2.2.2.2.1⟩
  · exact (h.2.2.2.1 instB).mpr (by decide)
  · exact (h.2.2.1 instC).mpr (by decide)
  · intro hmem
    exact absurd ((h.2.2.2.1 instA).mp hmem) (by decide)

/-! ### Claim C7 -/

/-- refreshInstances never notifies: its body contains no notifier call. -/
theorem refreshInstances_no_notifs (reg : List SpotInstance)
    (disc : Except String (List SpotInstance)) :
    (refreshInstances reg disc).notifs = [] := by
  cases disc <;> rfl

/-- Check cycles leave the accumulated notification list of a run unchanged. -/
theorem monitorRun_cycles_preserve_notifs
    (cycles : List (Except String (List SpotInstance))) :
    ∀ st : List SpotInstance × List Notification,
      (cycles.foldl
        (fun st disc =>
          let r := refreshInstances st.1 disc
          (r.registry, st.2 ++ r.notifs)) st).2 = st.2 := by
  induction cycles with
  | nil => intro st; rfl
  | cons c cs ih =>
    intro st
    simp only [List.foldl_cons]
    rw [ih]
    simp [refreshInstances_no_notifs]

/-- C7: the monitor-started notification is sent only by the very first
full-fleet discovery after startup: refreshInstances emits no notification
regardless of diffs, a whole run's notifications are exactly those of the
initial discovery (no later cycle adds any), and at most one monitor-started
notification is ever emitted. -/
theorem monitor_started_only_on_first_discovery (hasNotifier : Bool)
    (registry : List SpotInstance)
    (initial : Except String (List SpotInstance))
    (cycles : List (Except String (List SpotInstance))) :
    (∀ reg disc, (refreshInstances reg disc).notifs = []) ∧
    (monitorRun hasNotifier registry initial cycles).2 =
      (DiscoverInstances registry initial hasNotifier).2.1 ∧
    countMonitorStarted (monitorRun hasNotifier registry initial cycles).2 ≤ 1 := by
  have hrun : (monitorRun hasNotifier registry initial cycles).2 =
      (DiscoverInstances registry initial hasNotifier).2.1 :=
    monitorRun_cycles_preserve_notifs cycles _
  refine ⟨fun reg disc => refreshInstances_no_notifs reg disc, hrun, ?_⟩
  rw [hrun]
  rcases initial with e | instances
  · simp [DiscoverInstances, countMonitorStarted]
  · simp only [DiscoverInstances]
    split
    · simp [countMonitorStarted]
    · simp [countMonitorStarted]

/-! ### Claim C9 -/

/-- C9: uniqueness of instance ids within a snapshot: whenever each region's
listing reports pairwise-distinct ids and no id appears under two distinct
regions (the cloud API contract), the ids of a DiscoverAllSpotInstances
result are pairwise distinct, and so are those of the registry installed
from it by refreshInstances or DiscoverInstances. -/
theorem discovery_snapshot_ids_nodup (regions : List String)
    (listOf : String → Except String (List SpotInstance))
    (registry : List SpotInstance) (hasNotifier : Bool)
    (huniq : ∀ r ∈ regions, (instanceIDs (regionInstances listOf r)).Nodup)
    (hdisj : regions.Pairwise (fun r s =>
      ∀ a ∈ instanceIDs (regionInstances listOf r),
        a ∉ instanceIDs (regionInstances listOf s))) :
    (instanceIDs (DiscoverAllSpotInstances regions listOf)).Nodup ∧
    (instanceIDs (refreshInstances registry
      (Except.ok (DiscoverAllSpotInstances regions listOf))).registry).Nodup ∧
    (instanceIDs (DiscoverInstances registry
      (Except.ok (DiscoverAllSpotInstances regions listOf)) hasNotifier).1).Nodup := by
  have main : (instanceIDs (DiscoverAllSpotInstances regions listOf)).Nodup := by
    show ((regions.map (regionInstances listOf)).flatten.map
      (fun i => i.instanceID)).Nodup
    rw [List.map_flatten, List.map_map, List.nodup_flatten]
    constructor
    · intro l hl
      rcases List.mem_map.mp hl with ⟨r, hr, rfl⟩
      exact huniq r hr
    · rw [List.pairwise_map]
      refine hdisj.imp ?_
      intro r s h a har has
      exact h a har has
  exact ⟨main, main, main⟩

/-- Closed instantiation of C9 at a two-region fleet. -/
theorem discovery_snapshot_ids_nodup_witness :
    (instanceIDs (DiscoverAllSpotInstances ["cn-hangzhou", "us-west-1"]
      (fun r => if r = "cn-hangzhou" then Except.ok [instA]
                else Except.ok [instB, instC]))).Nodup := by
  exact (discovery_snapshot_ids_nodup ["cn-hangzhou", "us-west-1"]
    (fun r => if r = "cn-hangzhou" then Except.ok [instA]
              else Except.ok [instB, instC])
    [] true (by decide) (by decide)).1

/-! ### Claim C1 -/

/-- While every observation stays at or above the budget, a set latch stays
set and launches nothing. -/
theorem runLatch_latched {limitGB : ℚ} :
    ∀ l : List ℚ, (∀ x ∈ l, limitGB ≤ x) → runLatch limitGB true l = (true, 0)
  | [], _ => rfl
  | x :: xs, hall => by
    have hx : limitGB ≤ x := hall x (by simp)
    have ih := runLatch_latched xs (fun y hy => hall y (by simp [hy]))
    simp [runLatch, latchStep, hx, ih]

/-- From a clear latch, a nonempty all-at-or-above-budget sequence launches
the shutdown exactly once, on its first observation, and leaves the latch
set. -/
theorem runLatch_edge {limitGB : ℚ} :
    ∀ l : List ℚ, (∀ x ∈ l, limitGB ≤ x) → l ≠ [] →
      runLatch limitGB false l = (true, 1)
  | [], _, hne => absurd rfl hne
  | x :: xs, hall, _ => by
    have hx : limitGB ≤ x := hall x (by simp)
    have hrest := runLatch_latched xs (fun y hy => hall y (by simp [hy]))
    simp [runLatch, latchStep, hx, hrest]

/-- Latch runs compose over concatenation, adding their launch counts. -/
theorem runLatch_append {limitGB : ℚ} :
    ∀ (l1 : List ℚ) (b : Bool) (l2 : List ℚ),
      runLatch limitGB b (l1 ++ l2) =
        ((runLatch limitGB (runLatch limitGB b l1).1 l2).1,
         (runLatch limitGB b l1).2 +
           (runLatch limitGB (runLatch limitGB b l1).1 l2).2)
  | [], b, l2 => by simp [runLatch]
  | x :: xs, b, l2 => by
    simp [runLatch, runLatch_append xs, Nat.add_assoc]

/-- Once an observation below the budget clears the latch, a later breach
launches the shutdown again: the whole sequence launches twice. -/
theorem runLatch_rearm {limitGB : ℚ} (l1 l2 : List ℚ) (low : ℚ)
    (h1 : ∀ x ∈ l1, limitGB ≤ x) (hne1 : l1 ≠ []) (hlow : low < limitGB)
    (h2 : ∀ x ∈ l2, limitGB ≤ x) (hne2 : l2 ≠ []) :
    runLatch limitGB false (l1 ++ low :: l2) = (true, 2) := by
  rw [runLatch_append, runLatch_edge l1 h1 hne1]
  simp [runLatch, latchStep, not_le.mpr hlow, runLatch_edge l2 h2 hne2]

/-- The china components of a `CheckTraffic` run are the one-latch run over
the china traffic values. -/
theorem runCheckTraffic_china {cl nl : ℚ} :
    ∀ (ts : List TrafficSummary) (s : TrafficLatchState),
      (runCheckTraffic cl nl s ts).1.chinaShutdown =
        (runLatch cl s.chinaShutdown (ts.map (fun t => t.chinaGB))).1 ∧
      (runCheckTraffic cl nl s ts).2.1 =
        (runLatch cl s.chinaShutdown (ts.map (fun t => t.chinaGB))).2
  | [], _ => ⟨rfl, rfl⟩
  | t :: ts, s => by
    have ih := @runCheckTraffic_china cl nl ts
      ⟨(latchStep cl s.chinaShutdown t.chinaGB).1,
       (latchStep nl s.nonChinaShutdown t.nonChinaGB).1⟩
    simp only [runCheckTraffic, CheckTraffic, List.map_cons, runLatch]
    exact ⟨by rw [ih.1], by rw [ih.2]⟩

/-- The non-china components of a `CheckTraffic` run are the one-latch run
over the non-china traffic values. -/
theorem runCheckTraffic_nonChina {cl nl : ℚ} :
    ∀ (ts : List TrafficSummary) (s : TrafficLatchState),
      (runCheckTraffic cl nl s ts).1.nonChinaShutdown =
        (runLatch nl s.nonChinaShutdown (ts.map (fun t => t.nonChinaGB))).1 ∧
      (runCheckTraffic cl nl s ts).2.2 =
        (runLatch nl s.nonChinaShutdown (ts.map (fun t => t.nonChinaGB))).2
  | [], _ => ⟨rfl, rfl⟩
  | t :: ts, s => by
    have ih := @runCheckTraffic_nonChina cl nl ts
      ⟨(latchStep cl s.chinaShutdown t.chinaGB).1,
       (latchStep nl s.nonChinaShutdown t.nonChinaGB).1⟩
    simp only [runCheckTraffic, CheckTraffic, List.map_cons, runLatch]
    exact ⟨by rw [ih.1], by rw [ih.2]⟩

/-- C1: for each geographic group independently, `CheckTraffic` launches the
bulk shutdown exactly on that group's false-to-true latch transition: over
any nonempty sequence of invocations in which that group's observed traffic
stays at or above its budget — the other group's traffic is unconstrained —
the group's shutdown is launched exactly once and its latch ends set; an
observation strictly below the group's budget then clears its latch, and a
later at-or-above sequence launches that group's shutdown exactly once more
(two launches in total).  The china conclusions hypothesize only china
traffic over the sequences tsc1/lowc/tsc2, the non-china conclusions only
non-china traffic over the independent sequences tsn1/lown/tsn2. -/
theorem CheckTraffic_latch_edge (chinaLimitGB nonChinaLimitGB : ℚ)
    (s : TrafficLatchState)
    (tsc1 tsc2 tsn1 tsn2 : List TrafficSummary)
    (lowc lown : TrafficSummary)
    (hcs : s.chinaShutdown = false) (hns : s.nonChinaShutdown = false)
    (h1c : ∀ t ∈ tsc1, chinaLimitGB ≤ t.chinaGB)
    (hne1c : tsc1 ≠ [])
    (hlowc : lowc.chinaGB < chinaLimitGB)
    (h2c : ∀ t ∈ tsc2, chinaLimitGB ≤ t.chinaGB)
    (hne2c : tsc2 ≠ [])
    (h1n : ∀ t ∈ tsn1, nonChinaLimitGB ≤ t.nonChinaGB)
    (hne1n : tsn1 ≠ [])
    (hlown : lown.nonChinaGB < nonChinaLimitGB)
    (h2n : ∀ t ∈ tsn2, nonChinaLimitGB ≤ t.nonChinaGB)
    (hne2n : tsn2 ≠ []) :
    (runCheckTraffic chinaLimitGB nonChinaLimitGB s tsc1).2.1 = 1 ∧
    (runCheckTraffic chinaLimitGB nonChinaLimitGB s tsc1).1.chinaShutdown
      = true ∧
    (CheckTraffic chinaLimitGB nonChinaLimitGB
      (runCheckTraffic chinaLimitGB nonChinaLimitGB s
        tsc1).1 lowc).1.chinaShutdown = false ∧
    (runCheckTraffic chinaLimitGB nonChinaLimitGB s
      (tsc1 ++ lowc :: tsc2)).2.1 = 2 ∧
    (runCheckTraffic chinaLimitGB nonChinaLimitGB s tsn1).2.2 = 1 ∧
    (runCheckTraffic chinaLimitGB nonChinaLimitGB s tsn1).1.nonChinaShutdown
      = true ∧
    (CheckTraffic chinaLimitGB nonChinaLimitGB
      (runCheckTraffic chinaLimitGB nonChinaLimitGB s
        tsn1).1 lown).1.nonChinaShutdown = false ∧
    (runCheckTraffic chinaLimitGB nonChinaLimitGB s
      (tsn1 ++ lown :: tsn2)).2.2 = 2 := by
  have h1c' : ∀ x ∈ tsc1.map (fun t => t.chinaGB), chinaLimitGB ≤ x := by
    intro x hx; rcases List.mem_map.mp hx with ⟨t, ht, rfl⟩; exact h1c t ht
  have h2c' : ∀ x ∈ tsc2.map (fun t => t.chinaGB), chinaLimitGB ≤ x := by
    intro x hx; rcases List.mem_map.mp hx with ⟨t, ht, rfl⟩; exact h2c t ht
  have h1n' : ∀ x ∈ tsn1.map (fun t => t.nonChinaGB), nonChinaLimitGB ≤ x :=
    by
    intro x hx; rcases List.mem_map.mp hx with ⟨t, ht, rfl⟩; exact h1n t ht
  have h2n' : ∀ x ∈ tsn2.map (fun t => t.nonChinaGB), nonChinaLimitGB ≤ x :=
    by
    intro x hx; rcases List.mem_map.mp hx with ⟨t, ht, rfl⟩; exact h2n t ht
  have hm1c : tsc1.map (fun t => t.chinaGB) ≠ [] := by
    simpa using hne1c
  have hm2c : tsc2.map (fun t => t.chinaGB) ≠ [] := by
    simpa using hne2c
  have hm1n : tsn1.map (fun t => t.nonChinaGB) ≠ [] := by
    simpa using hne1n
  have hm2n : tsn2.map (fun t => t.nonChinaGB) ≠ [] := by
    simpa using hne2n
  have pc := @runCheckTraffic_china chinaLimitGB nonChinaLimitGB tsc1 s
  have pn := @runCheckTraffic_nonChina chinaLimitGB nonChinaLimitGB tsn1 s
  have pc2 := @runCheckTraffic_china chinaLimitGB nonChinaLimitGB
    (tsc1 ++ lowc :: tsc2) s
  have pn2 := @runCheckTraffic_nonChina chinaLimitGB nonChinaLimitGB
    (tsn1 ++ lown :: tsn2) s
  rw [hcs] at pc pc2
  rw [hns] at pn pn2
  have ec := @runLatch_edge chinaLimitGB _ h1c' hm1c
  have en := @runLatch_edge nonChinaLimitGB _ h1n' hm1n
  have rc : runLatch chinaLimitGB false
      ((tsc1 ++ lowc :: tsc2).map (fun t => t.chinaGB)) = (true, 2) := by
    rw [List.map_append, List.map_cons]
    exact runLatch_rearm _ _ _ h1c' hm1c hlowc h2c' hm2c
  have rn : runLatch nonChinaLimitGB false
      ((tsn1 ++ lown :: tsn2).map (fun t => t.nonChinaGB)) = (true, 2) := by
    rw [List.map_append, List.map_cons]
    exact runLatch_rearm _ _ _ h1n' hm1n hlown h2n' hm2n
  refine ⟨?_, ?_, ?_, ?_, ?_, ?_, ?_, ?_⟩
  · rw [pc.2, ec]
  · rw [pc.1, ec]
  · show (latchStep chinaLimitGB
      (runCheckTraffic chinaLimitGB nonChinaLimitGB s tsc1).1.chinaShutdown
      lowc.chinaGB).1 = false
    rw [pc.1, ec]
    simp [latchStep, not_le.mpr hlowc]
  · rw [pc2.2, rc]
  · rw [pn.2, en]
  · rw [pn.1, en]
  · show (latchStep nonChinaLimitGB
      (runCheckTraffic chinaLimitGB nonChinaLimitGB s
        tsn1).1.nonChinaShutdown lown.nonChinaGB).1 = false
    rw [pn.1, en]
    simp [latchStep, not_le.mpr hlown]
  · rw [pn2.2, rn]

/-- Closed instantiation of C1 with the groups breaching independently.
China budget 19 GB, non-china budget 50 GB.  China sequence: 20 GB and
20 GB while non-china traffic wanders across its own budget (60 GB then
3 GB), one china launch; then 5 GB clears the china latch and 21 GB
launches once more.  Non-china sequence: 55 GB with china at 0 GB, one
non-china launch; then 4 GB clears and 70 GB re-launches. -/
theorem CheckTraffic_latch_edge_witness :
    (runCheckTraffic 19 50 ⟨false, false⟩ [⟨20, 60⟩, ⟨20, 3⟩]).2.1 = 1 ∧
    (runCheckTraffic 19 50 ⟨false, false⟩
      ([⟨20, 60⟩, ⟨20, 3⟩] ++ ⟨5, 100⟩ :: [⟨21, 0⟩])).2.1 = 2 ∧
    (runCheckTraffic 19 50 ⟨false, false⟩ [⟨0, 55⟩]).2.2 = 1 ∧
    (runCheckTraffic 19 50 ⟨false, false⟩
      ([⟨0, 55⟩] ++ ⟨30, 4⟩ :: [⟨1, 70⟩])).2.2 = 2 := by
  have h := CheckTraffic_latch_edge 19 50 ⟨false, false⟩
    [⟨20, 60⟩, ⟨20, 3⟩] [⟨21, 0⟩] [⟨0, 55⟩] [⟨1, 70⟩] ⟨5, 100⟩ ⟨30, 4⟩
    rfl rfl
    (by decide) (by decide) (by decide) (by decide) (by decide)
    (by decide) (by decide) (by decide) (by decide) (by decide)
  exact ⟨h.1, h.2.2.2.1, h.2.2.2.2.1, h.2.2.2.2.2.2.2⟩

/-! ### Claim C6 -/

/-- The stop commands of the bulk-shutdown loop are exactly the in-group
Running instances, in order, each with the cost-saving mode. -/
theorem shutdownLoop_fst (env : ShutdownEnv) (region : String) :
    ∀ l : List SpotInstance,
      (shutdownLoop env region l).1 =
        (l.filter (shutdownTarget env region)).map
          (fun i => (⟨i.regionID, i.instanceID, "StopCharging"⟩ : StopCmd))
  | [] => rfl
  | inst :: rest => by
    have ih := shutdownLoop_fst env region rest
    by_cases hskip : ((region == "china" && !env.isChinaRegion inst.regionID) ||
        (region == "non-china" && env.isChinaRegion inst.regionID)) = true
    · have ht : shutdownTarget env region inst = false := by
        simp only [shutdownTarget, hskip]
        rfl
      simp only [shutdownLoop, if_pos hskip, List.filter_cons, ht]
      simpa using ih
    · rcases hst : env.statusOf inst.instanceID with e | status
      · have ht : shutdownTarget env region inst = false := by
          simp [shutdownTarget, hst]
        simp only [shutdownLoop, if_neg hskip, hst, List.filter_cons, ht]
        simpa using ih
      · by_cases hrun : status = "Running"
        · subst hrun
          have hcond : ((region == "china" && !env.isChinaRegion inst.regionID)
              || (region == "non-china" && env.isChinaRegion inst.regionID))
              = false := Bool.eq_false_iff.mpr hskip
          have ht : shutdownTarget env region inst = true := by
            simp [shutdownTarget, hst, hcond]
          simp only [shutdownLoop, if_neg hskip, hst, List.filter_cons, ht]
          cases hok : env.stopOk inst.instanceID <;>
            simp [ih]
        · have ht : shutdownTarget env region inst = false := by
            simp [shutdownTarget, hst, hrun]
          simp only [shutdownLoop, if_neg hskip, hst, List.filter_cons, ht]
          simp [hrun, ih]

/-- The instances recorded as actually stopped by the bulk-shutdown loop are
exactly the in-group Running instances whose stop call succeeded. -/
theorem shutdownLoop_snd (env : ShutdownEnv) (region : String) :
    ∀ l : List SpotInstance,
      (shutdownLoop env region l).2 =
        (l.filter (fun i =>
          shutdownTarget env region i && env.stopOk i.instanceID)).map
          (fun i => i.instanceID)
  | [] => rfl
  | inst :: rest => by
    have ih := shutdownLoop_snd env region rest
    by_cases hskip : ((region == "china" && !env.isChinaRegion inst.regionID) ||
        (region == "non-china" && env.isChinaRegion inst.regionID)) = true
    · have ht : shutdownTarget env region inst = false := by
        simp only [shutdownTarget, hskip]
        rfl
      simp only [shutdownLoop, if_pos hskip, List.filter_cons, ht]
      simpa using ih
    · rcases hst : env.statusOf inst.instanceID with e | status
      · have ht : shutdownTarget env region inst = false := by
          simp [shutdownTarget, hst]
        simp only [shutdownLoop, if_neg hskip, hst, List.filter_cons, ht]
        simpa using ih
      · by_cases hrun : status = "Running"
        · subst hrun
          have hcond : ((region == "china" && !env.isChinaRegion inst.regionID)
              || (region == "non-china" && env.isChinaRegion inst.regionID))
              = false := Bool.eq_false_iff.mpr hskip
          have ht : shutdownTarget env region inst = true := by
            simp [shutdownTarget, hst, hcond]
          simp only [shutdownLoop, if_neg hskip, hst, List.filter_cons, ht]
          cases hok : env.stopOk inst.instanceID <;>
            simp [hok, ih]
        · have ht : shutdownTarget env region inst = false := by
            simp [shutdownTarget, hst, hrun]
          simp only [shutdownLoop, if_neg hskip, hst, List.filter_cons, ht]
          simp [hrun, ih]

/-- C6: bulk shutdown of a group stops exactly the tracked instances that
belong to the group and whose queried status is Running, each with the
cost-saving StopCharging mode; non-Running instances and failed status
queries are skipped silently (no stop command, not listed, no error); when a
notifier is configured, exactly one shutdown notification is sent
enumerating the instances actually stopped, and none when nothing was
stopped. -/
theorem shutdownRegionInstances_spec (env : ShutdownEnv)
    (instances : List SpotInstance) (region : String) (trafficGB limitGB : ℚ)
    (hn : env.hasNotifier = true) :
    (shutdownRegionInstances env instances region trafficGB limitGB).1 =
      (instances.filter (shutdownTarget env region)).map
        (fun i => (⟨i.regionID, i.instanceID, "StopCharging"⟩ : StopCmd)) ∧
    (∀ c ∈ (shutdownRegionInstances env instances region trafficGB limitGB).1,
      c.stoppedMode = "StopCharging") ∧
    (shutdownRegionInstances env instances region trafficGB limitGB).2.1 =
      (instances.filter (fun i =>
        shutdownTarget env region i && env.stopOk i.instanceID)).map
        (fun i => i.instanceID) ∧
    ((shutdownRegionInstances env instances region trafficGB limitGB).2.1 ≠ []
      → (shutdownRegionInstances env instances region trafficGB limitGB).2.2 =
        [Notification.trafficShutdown region trafficGB limitGB
          (shutdownRegionInstances env instances region trafficGB
            limitGB).2.1]) ∧
    ((shutdownRegionInstances env instances region trafficGB limitGB).2.1 = []
      → (shutdownRegionInstances env instances region trafficGB limitGB).2.2 =
        []) := by
  have h1 : (shutdownRegionInstances env instances region trafficGB limitGB).1
      = (instances.filter (shutdownTarget env region)).map
        (fun i => (⟨i.regionID, i.instanceID, "StopCharging"⟩ : StopCmd)) :=
    shutdownLoop_fst env region instances
  refine ⟨h1, ?_, shutdownLoop_snd env region instances, ?_, ?_⟩
  · intro c hc
    rw [h1] at hc
    rcases List.mem_map.mp hc with ⟨i, _, rfl⟩
    rfl
  · intro hne
    have hpos : 0 < (shutdownLoop env region instances).2.length :=
      List.length_pos.mpr hne
    simp [shutdownRegionInstances, hn, hpos]
  · intro hnil
    have hz : (shutdownLoop env region instances).2 = [] := hnil
    simp [shutdownRegionInstances, hz]

/-- Closed instantiation of C6: one Running instance i-001 in the breached
china group is stopped with the cost-saving mode and exactly one shutdown
notification listing it is sent. -/
theorem shutdownRegionInstances_spec_witness :
    (shutdownRegionInstances shutdownEnvW [inst001] "china" 20 19).1 =
      [⟨"cn-hangzhou", "i-001", "StopCharging"⟩] ∧
    (shutdownRegionInstances shutdownEnvW [inst001] "china" 20 19).2.2 =
      [Notification.trafficShutdown "china" 20 19 ["i-001"]] := by
  have h := shutdownRegionInstances_spec shutdownEnvW [inst001] "china" 20 19
    rfl
  have hs : (shutdownRegionInstances shutdownEnvW [inst001] "china"
      20 19).2.1 = ["i-001"] := by
    rw [h.2.2.1]
    rfl
  have hc : (shutdownRegionInstances shutdownEnvW [inst001] "china" 20 19).1 =
      [⟨"cn-hangzhou", "i-001", "StopCharging"⟩] := by
    rw [h.1]
    rfl
  have hne : (shutdownRegionInstances shutdownEnvW [inst001] "china"
      20 19).2.1 ≠ [] := by
    rw [hs]
    exact List.cons_ne_nil _ _
  refine ⟨hc, ?_⟩
  rw [h.2.2.2.1 hne, hs]

/-! ### Claim C2 -/

/-- The retry loop never issues more start commands than it has attempts
left. -/
theorem startRetryLoop_le (env : CheckEnv) (startClock : Nat) :
    ∀ (remaining i clock : Nat) (lastErr : Option String),
      countStartCmds (startRetryLoop env startClock remaining i clock
        lastErr).1 ≤ remaining
  | 0, i, clock, lastErr => by
    cases hn : env.hasNotifier <;>
      simp [startRetryLoop, hn, countStartCmds]
  | remaining + 1, i, clock, lastErr => by
    rcases ha : env.attempts i with e | e | _
    · have ih := startRetryLoop_le env startClock remaining (i + 1)
        (clock + (if 0 < i then env.retryInterval else 0) +
          env.attemptDuration i) (some e)
      simp only [startRetryLoop, ha, countStartCmds]
      omega
    · have ih := startRetryLoop_le env startClock remaining (i + 1)
        (clock + (if 0 < i then env.retryInterval else 0) +
          env.attemptDuration i) (some e)
      simp only [startRetryLoop, ha, countStartCmds]
      omega
    · cases hn : env.hasNotifier <;>
        simp [startRetryLoop, ha, hn, countStartCmds]

/-- The retry loop emits no reclaimed notification. -/
theorem startRetryLoop_no_reclaimed (env : CheckEnv) (startClock : Nat) :
    ∀ (remaining i clock : Nat) (lastErr : Option String),
      countReclaimedNotifs (startRetryLoop env startClock remaining i clock
        lastErr).1 = 0
  | 0, i, clock, lastErr => by
    cases hn : env.hasNotifier <;>
      simp [startRetryLoop, hn, countReclaimedNotifs]
  | remaining + 1, i, clock, lastErr => by
    rcases ha : env.attempts i with e | e | _
    · have ih := startRetryLoop_no_reclaimed env startClock remaining (i + 1)
        (clock + (if 0 < i then env.retryInterval else 0) +
          env.attemptDuration i) (some e)
      simp only [startRetryLoop, ha, countReclaimedNotifs]
      omega
    · have ih := startRetryLoop_no_reclaimed env startClock remaining (i + 1)
        (clock + (if 0 < i then env.retryInterval else 0) +
          env.attemptDuration i) (some e)
      simp only [startRetryLoop, ha, countReclaimedNotifs]
      omega
    · cases hn : env.hasNotifier <;>
        simp [startRetryLoop, ha, hn, countReclaimedNotifs]

/-- Behaviour of the retry loop when attempt `i + k` is the first success:
`k + 1` start commands, one started notification (when a notifier is
configured) whose duration is the elapsed retry-phase time, no start-failed
notification, and a nil result. -/
theorem startRetryLoop_success (env : CheckEnv) (startClock : Nat) :
    ∀ (k remaining i d : Nat) (lastErr : Option String),
      k < remaining →
      (∀ j, j < k → env.attempts (i + j) ≠ AttemptOutcome.success) →
      env.attempts (i + k) = AttemptOutcome.success →
      countStartCmds (startRetryLoop env startClock remaining i
        (startClock + d) lastErr).1 = k + 1 ∧
      countStartedNotifs (startRetryLoop env startClock remaining i
        (startClock + d) lastErr).1 = (if env.hasNotifier then 1 else 0) ∧
      countStartFailedNotifs (startRetryLoop env startClock remaining i
        (startClock + d) lastErr).1 = 0 ∧
      (env.hasNotifier = true →
        Event.startedNotif (d + loopElapsed env i (k + 1)) ∈
          (startRetryLoop env startClock remaining i (startClock + d)
            lastErr).1) ∧
      (startRetryLoop env startClock remaining i (startClock + d)
        lastErr).2 = none
  | 0, remaining, i, d, lastErr => by
    intro hk hprev hsucc
    match remaining, hk with
    | r + 1, _ =>
      rw [Nat.add_zero] at hsucc
      have hval : startClock + d +
          (if 0 < i then env.retryInterval else 0) +
          env.attemptDuration i - startClock = d + loopElapsed env i 1 := by
        simp only [loopElapsed]
        omega
      cases hn : env.hasNotifier <;>
        simp [startRetryLoop, hsucc, hn, countStartCmds, countStartedNotifs,
          countStartFailedNotifs, hval]
  | k + 1, remaining, i, d, lastErr => by
    intro hk hprev hsucc
    match remaining, hk with
    | r + 1, hk =>
      have h0 : env.attempts i ≠ AttemptOutcome.success := by
        have h := hprev 0 (Nat.succ_pos k)
        simpa using h
      have hprev2 : ∀ j, j < k →
          env.attempts (i + 1 + j) ≠ AttemptOutcome.success := by
        intro j hj
        have h := hprev (j + 1) (Nat.succ_lt_succ hj)
        have he : i + (j + 1) = i + 1 + j := by omega
        rwa [he] at h
      have hsucc2 : env.attempts (i + 1 + k) = AttemptOutcome.success := by
        have he : i + 1 + k = i + (k + 1) := by omega
        rwa [he]
      have hk2 : k < r := by omega
      have hdur : d + loopElapsed env i (k + 1 + 1) =
          d + ((if 0 < i then env.retryInterval else 0) +
            env.attemptDuration i) + loopElapsed env (i + 1) (k + 1) := by
        simp only [loopElapsed]
        omega
      have harg : startClock + d + (if 0 < i then env.retryInterval else 0) +
          env.attemptDuration i =
          startClock + (d + ((if 0 < i then env.retryInterval else 0) +
            env.attemptDuration i)) := by
        omega
      rcases ha : env.attempts i with e | e | _
      · have ih := startRetryLoop_success env startClock k r (i + 1)
          (d + ((if 0 < i then env.retryInterval else 0) +
            env.attemptDuration i)) (some e) hk2 hprev2 hsucc2
        simp only [startRetryLoop, ha]
        rw [harg]
        refine ⟨?_, ?_, ?_, ?_, ih.2.2.2.2⟩
        · simp [countStartCmds, ih.1]
        · simp [countStartedNotifs, ih.2.1]
        · simp [countStartFailedNotifs, ih.2.2.1]
        · intro hnote
          rw [hdur]
          exact List.mem_cons_of_mem _ (ih.2.2.2.1 hnote)
      · have ih := startRetryLoop_success env startClock k r (i + 1)
          (d + ((if 0 < i then env.retryInterval else 0) +
            env.attemptDuration i)) (some e) hk2 hprev2 hsucc2
        simp only [startRetryLoop, ha]
        rw [harg]
        refine ⟨?_, ?_, ?_, ?_, ih.2.2.2.2⟩
        · simp [countStartCmds, ih.1]
        · simp [countStartedNotifs, ih.2.1]
        · simp [countStartFailedNotifs, ih.2.2.1]
        · intro hnote
          rw [hdur]
          exact List.mem_cons_of_mem _ (ih.2.2.2.1 hnote)
      · exact absurd ha h0

/-- Behaviour of the retry loop when every attempt fails: one start command
per attempt, no started notification, one start-failed notification (when a
notifier is configured) carrying the configured retry count and the last
error, which is also the returned result. -/
theorem startRetryLoop_allfail (env : CheckEnv) (startClock : Nat) :
    ∀ (remaining i clock : Nat) (lastErr : Option String),
      (∀ j, j < remaining → env.attempts (i + j) ≠ AttemptOutcome.success) →
      countStartCmds (startRetryLoop env startClock remaining i clock
        lastErr).1 = remaining ∧
      countStartedNotifs (startRetryLoop env startClock remaining i clock
        lastErr).1 = 0 ∧
      countStartFailedNotifs (startRetryLoop env startClock remaining i clock
        lastErr).1 = (if env.hasNotifier then 1 else 0) ∧
      (startRetryLoop env startClock remaining i clock lastErr).2 =
        (if remaining = 0 then lastErr
         else attemptErr (env.attempts (i + remaining - 1))) ∧
      (env.hasNotifier = true →
        Event.startFailedNotif env.retryCount
          (if remaining = 0 then lastErr
           else attemptErr (env.attempts (i + remaining - 1))) ∈
          (startRetryLoop env startClock remaining i clock lastErr).1)
  | 0, i, clock, lastErr => by
    intro _
    cases hn : env.hasNotifier <;>
      simp [startRetryLoop, hn, countStartCmds, countStartedNotifs,
        countStartFailedNotifs]
  | remaining + 1, i, clock, lastErr => by
    intro hall
    have h0 : env.attempts i ≠ AttemptOutcome.success := by
      have h := hall 0 (Nat.succ_pos remaining)
      simpa using h
    have hall2 : ∀ j, j < remaining →
        env.attempts (i + 1 + j) ≠ AttemptOutcome.success := by
      intro j hj
      have h := hall (j + 1) (Nat.succ_lt_succ hj)
      have he : i + (j + 1) = i + 1 + j := by omega
      rwa [he] at h
    rcases ha : env.attempts i with e | e | _
    · have ih := startRetryLoop_allfail env startClock remaining (i + 1)
        (clock + (if 0 < i then env.retryInterval else 0) +
          env.attemptDuration i) (some e) hall2
      have hres : (if remaining = 0 then (some e : Option String)
          else attemptErr (env.attempts (i + 1 + remaining - 1))) =
          attemptErr (env.attempts (i + (remaining + 1) - 1)) := by
        rcases remaining with _ | r
        · simp [ha, attemptErr]
        · have he : i + 1 + (r + 1) - 1 = i + (r + 1 + 1) - 1 := by omega
          simp [he]
      simp only [startRetryLoop, ha]
      refine ⟨?_, ih.2.1, ih.2.2.1, ?_, ?_⟩
      · simp [countStartCmds, ih.1]
      · rw [ih.2.2.2.1, hres]
        simp
      · intro hnote
        have hmem := ih.2.2.2.2 hnote
        rw [hres] at hmem
        simpa using List.mem_cons_of_mem (Event.startCmd i) hmem
    · have ih := startRetryLoop_allfail env startClock remaining (i + 1)
        (clock + (if 0 < i then env.retryInterval else 0) +
          env.attemptDuration i) (some e) hall2
      have hres : (if remaining = 0 then (some e : Option String)
          else attemptErr (env.attempts (i + 1 + remaining - 1))) =
          attemptErr (env.attempts (i + (remaining + 1) - 1)) := by
        rcases remaining with _ | r
        · simp [ha, attemptErr]
        · have he : i + 1 + (r + 1) - 1 = i + (r + 1 + 1) - 1 := by omega
          simp [he]
      simp only [startRetryLoop, ha]
      refine ⟨?_, ih.2.1, ih.2.2.1, ?_, ?_⟩
      · simp [countStartCmds, ih.1]
      · rw [ih.2.2.2.1, hres]
        simp
      · intro hnote
        have hmem := ih.2.2.2.2 hnote
        rw [hres] at hmem
        simpa using List.mem_cons_of_mem (Event.startCmd i) hmem
    · exact absurd ha h0

/-- Unfolding of `checkInstance` for a Stopped instance with a clear group
latch: the status query, the cooldown-gated reclaimed notification,
the cooldown update, and the retry loop starting at the retry-phase clock. -/
theorem checkInstance_stopped (env : CheckEnv) (inst : SpotInstance)
    (latch : TrafficLatchState) (lastNotify : Option Nat) (now : Nat)
    (hblock : (env.isChinaRegion inst.regionID && latch.chinaShutdown ||
      (!env.isChinaRegion inst.regionID && latch.nonChinaShutdown)) = false)
    (hstatus : env.statusResult = Except.ok "Stopped") :
    checkInstance env inst latch lastNotify now =
      ((Event.statusQuery ::
        (if canNotify lastNotify now env.notifyCooldown && env.hasNotifier
         then [Event.reclaimedNotif env.reclaimedSendOk] else [])) ++
        (startRetryLoop env (now + env.preLoopDuration) env.retryCount 0
          (now + env.preLoopDuration) none).1,
       (startRetryLoop env (now + env.preLoopDuration) env.retryCount 0
          (now + env.preLoopDuration) none).2,
       (if canNotify lastNotify now env.notifyCooldown then some now
        else lastNotify)) := by
  simp [checkInstance, hblock, hstatus]

/-- The pre-loop events contribute no start command, started or start-failed
notification, and exactly the gated reclaimed notification. -/
theorem counts_pre (b ok : Bool) (l : List Event) :
    countStartCmds ((Event.statusQuery ::
      (if b then [Event.reclaimedNotif ok] else [])) ++ l) =
      countStartCmds l ∧
    countStartedNotifs ((Event.statusQuery ::
      (if b then [Event.reclaimedNotif ok] else [])) ++ l) =
      countStartedNotifs l ∧
    countStartFailedNotifs ((Event.statusQuery ::
      (if b then [Event.reclaimedNotif ok] else [])) ++ l) =
      countStartFailedNotifs l ∧
    countReclaimedNotifs ((Event.statusQuery ::
      (if b then [Event.reclaimedNotif ok] else [])) ++ l) =
      (if b then 1 else 0) + countReclaimedNotifs l := by
  cases b <;>
    simp [countStartCmds, countStartedNotifs, countStartFailedNotifs,
      countReclaimedNotifs, Nat.add_comm]

/-- C2: for a Stopped instance with a clear group latch and a configured
notifier, checkInstance issues at most RetryCount start commands; when
attempt k is the first on which both the start command and the running-wait
succeed, it issues exactly k+1 start commands, emits exactly one started
notification whose elapsed duration covers exactly the retry phase, and
returns no error; when all RetryCount attempts fail it emits exactly one
start-failed notification carrying the retry count and the last error and
returns that error. -/
theorem checkInstance_stopped_retry (env : CheckEnv) (inst : SpotInstance)
    (latch : TrafficLatchState) (lastNotify : Option Nat) (now k : Nat)
    (hblock : (env.isChinaRegion inst.regionID && latch.chinaShutdown ||
      (!env.isChinaRegion inst.regionID && latch.nonChinaShutdown)) = false)
    (hstatus : env.statusResult = Except.ok "Stopped")
    (hn : env.hasNotifier = true) :
    countStartCmds (checkInstance env inst latch lastNotify now).1 ≤
      env.retryCount ∧
    (k < env.retryCount →
      (∀ j, j < k → env.attempts j ≠ AttemptOutcome.success) →
      env.attempts k = AttemptOutcome.success →
      countStartCmds (checkInstance env inst latch lastNotify now).1 = k + 1 ∧
      countStartedNotifs (checkInstance env inst latch lastNotify now).1
        = 1 ∧
      Event.startedNotif (loopElapsed env 0 (k + 1)) ∈
        (checkInstance env inst latch lastNotify now).1 ∧
      countStartFailedNotifs (checkInstance env inst latch lastNotify now).1
        = 0 ∧
      (checkInstance env inst latch lastNotify now).2.1 = none) ∧
    ((∀ j, j < env.retryCount → env.attempts j ≠ AttemptOutcome.success) →
      0 < env.retryCount →
      countStartCmds (checkInstance env inst latch lastNotify now).1 =
        env.retryCount ∧
      countStartedNotifs (checkInstance env inst latch lastNotify now).1
        = 0 ∧
      countStartFailedNotifs (checkInstance env inst latch lastNotify now).1
        = 1 ∧
      Event.startFailedNotif env.retryCount
        (attemptErr (env.attempts (env.retryCount - 1))) ∈
        (checkInstance env inst latch lastNotify now).1 ∧
      (checkInstance env inst latch lastNotify now).2.1 =
        attemptErr (env.attempts (env.retryCount - 1))) := by
  rw [checkInstance_stopped env inst latch lastNotify now hblock hstatus]
  dsimp only
  have cp := counts_pre
    (canNotify lastNotify now env.notifyCooldown && env.hasNotifier)
    env.reclaimedSendOk
    ((startRetryLoop env (now + env.preLoopDuration) env.retryCount 0
      (now + env.preLoopDuration) none).1)
  refine ⟨?_, ?_, ?_⟩
  · rw [cp.1]
    exact startRetryLoop_le env (now + env.preLoopDuration) env.retryCount 0
      (now + env.preLoopDuration) none
  · intro hk hprev hsucc
    have hprev0 : ∀ j, j < k → env.attempts (0 + j) ≠
        AttemptOutcome.success := by
      intro j hj
      rw [Nat.zero_add]
      exact hprev j hj
    have hsucc0 : env.attempts (0 + k) = AttemptOutcome.success := by
      rw [Nat.zero_add]
      exact hsucc
    have hs := startRetryLoop_success env (now + env.preLoopDuration) k
      env.retryCount 0 0 none hk hprev0 hsucc0
    rw [Nat.add_zero] at hs
    refine ⟨?_, ?_, ?_, ?_, hs.2.2.2.2⟩
    · rw [cp.1, hs.1]
    · rw [cp.2.1, hs.2.1, hn]
      rfl
    · have hmem := hs.2.2.2.1 hn
      rw [Nat.zero_add] at hmem
      exact List.mem_append.mpr (Or.inr hmem)
    · rw [cp.2.2.1, hs.2.2.1]
  · intro hall hpos
    have hall0 : ∀ j, j < env.retryCount → env.attempts (0 + j) ≠
        AttemptOutcome.success := by
      intro j hj
      rw [Nat.zero_add]
      exact hall j hj
    have hf := startRetryLoop_allfail env (now + env.preLoopDuration)
      env.retryCount 0 (now + env.preLoopDuration) none hall0
    have hne0 : env.retryCount ≠ 0 := Nat.pos_iff_ne_zero.mp hpos
    rw [if_neg hne0, Nat.zero_add] at hf
    refine ⟨?_, ?_, ?_, ?_, hf.2.2.2.1⟩
    · rw [cp.1, hf.1]
    · rw [cp.2.1, hf.2.1]
    · rw [cp.2.2.1, hf.2.2.1, hn]
      rfl
    · exact List.mem_append.mpr (Or.inr (hf.2.2.2.2 hn))

/-- Closed instantiation of C2: retry count 3, start fails twice then
succeeds, running-wait succeeds: exactly 3 start commands, one started
notification, elapsed duration 13 (two 5-second sleeps plus three 1-second
attempts), zero duration contribution from anything before the retry
phase. -/
theorem checkInstance_stopped_retry_witness :
    countStartCmds (checkInstance checkEnvW instA ⟨false, false⟩
      none 100).1 = 3 ∧
    countStartedNotifs (checkInstance checkEnvW instA ⟨false, false⟩
      none 100).1 = 1 ∧
    Event.startedNotif 13 ∈ (checkInstance checkEnvW instA ⟨false, false⟩
      none 100).1 ∧
    (checkInstance checkEnvW instA ⟨false, false⟩ none 100).2.1 = none := by
  have h := (checkInstance_stopped_retry checkEnvW instA ⟨false, false⟩
    none 100 2 rfl rfl rfl).2.1 (by decide)
    (by
      intro j hj
      match j, hj with
      | 0, _ => decide
      | 1, _ => decide)
    (by decide)
  have hd : loopElapsed checkEnvW 0 3 = 13 := rfl
  refine ⟨h.1, h.2.1, ?_, h.2.2.2.2⟩
  have hmem := h.2.2.1
  rwa [hd] at hmem

/-! ### Claim C3 -/

/-- C3: for an instance whose queried status is not Stopped, checkInstance
issues zero start commands and returns without error (only a status query
happens); when the instance's group latch is active it returns before even
querying the status (no events at all). -/
theorem checkInstance_noop (env : CheckEnv) (inst : SpotInstance)
    (latch : TrafficLatchState) (lastNotify : Option Nat) (now : Nat) :
    ((env.isChinaRegion inst.regionID && latch.chinaShutdown ||
      (!env.isChinaRegion inst.regionID && latch.nonChinaShutdown)) = true →
      checkInstance env inst latch lastNotify now = ([], none, lastNotify)) ∧
    (∀ s, (env.isChinaRegion inst.regionID && latch.chinaShutdown ||
      (!env.isChinaRegion inst.regionID && latch.nonChinaShutdown)) = false →
      env.statusResult = Except.ok s → s ≠ "Stopped" →
      checkInstance env inst latch lastNotify now =
        ([Event.statusQuery], none, lastNotify) ∧
      countStartCmds (checkInstance env inst latch lastNotify now).1
        = 0) := by
  constructor
  · intro hb
    simp [checkInstance, hb]
  · intro s hb hs hne
    have h1 : checkInstance env inst latch lastNotify now =
        ([Event.statusQuery], none, lastNotify) := by
      simp [checkInstance, hb, hs, hne]
    refine ⟨h1, ?_⟩
    rw [h1]
    rfl

/-- Closed instantiation of C3: a latched group skips without querying, a
Running instance is a pure no-op after one status query. -/
theorem checkInstance_noop_witness :
    checkInstance checkEnvW instA ⟨false, true⟩ none 100 =
      ([], none, none) ∧
    checkInstance checkEnvRunning instA ⟨false, false⟩ none 100 =
      ([Event.statusQuery], none, none) := by
  constructor
  · exact (checkInstance_noop checkEnvW instA ⟨false, true⟩ none 100).1 rfl
  · exact ((checkInstance_noop checkEnvRunning instA ⟨false, false⟩ none
      100).2 "Running" rfl rfl (by decide)).1

/-! ### Claim C4 -/

/-- C4: cooldown gating of the reclaimed notification.  A key with no
recorded entry is eligible immediately: the first check emits exactly one
reclaimed notification and records the time; a second trigger at most the
cooldown window later emits none and keeps the old timestamp; a second
trigger strictly more than the window later emits one again and re-records;
and the cooldown timestamp is recorded whenever the cooldown allows — before
the retry loop begins and regardless of delivery outcome or retry results
(the last conjunct holds for every environment, whatever its notifier,
send-outcome and attempt oracles). -/
theorem checkInstance_cooldown (env1 env2 : CheckEnv) (inst : SpotInstance)
    (latch : TrafficLatchState) (t1 t2 cd : Nat)
    (hcd1 : env1.notifyCooldown = cd) (hcd2 : env2.notifyCooldown = cd)
    (hb1 : (env1.isChinaRegion inst.regionID && latch.chinaShutdown ||
      (!env1.isChinaRegion inst.regionID && latch.nonChinaShutdown)) = false)
    (hb2 : (env2.isChinaRegion inst.regionID && latch.chinaShutdown ||
      (!env2.isChinaRegion inst.regionID && latch.nonChinaShutdown)) = false)
    (hs1 : env1.statusResult = Except.ok "Stopped")
    (hs2 : env2.statusResult = Except.ok "Stopped")
    (hn1 : env1.hasNotifier = true) (hn2 : env2.hasNotifier = true) :
    countReclaimedNotifs (checkInstance env1 inst latch none t1).1 = 1 ∧
    (checkInstance env1 inst latch none t1).2.2 = some t1 ∧
    (t2 - t1 ≤ cd →
      countReclaimedNotifs (checkInstance env2 inst latch (some t1) t2).1
        = 0 ∧
      (checkInstance env2 inst latch (some t1) t2).2.2 = some t1) ∧
    (cd < t2 - t1 →
      countReclaimedNotifs (checkInstance env2 inst latch (some t1) t2).1
        = 1 ∧
      (checkInstance env2 inst latch (some t1) t2).2.2 = some t2) ∧
    (∀ (env3 : CheckEnv) (ln : Option Nat) (t : Nat),
      (env3.isChinaRegion inst.regionID && latch.chinaShutdown ||
        (!env3.isChinaRegion inst.regionID && latch.nonChinaShutdown))
        = false →
      env3.statusResult = Except.ok "Stopped" →
      canNotify ln t env3.notifyCooldown = true →
      (checkInstance env3 inst latch ln t).2.2 = some t) := by
  have u1 := checkInstance_stopped env1 inst latch none t1 hb1 hs1
  have u2 := checkInstance_stopped env2 inst latch (some t1) t2 hb2 hs2
  have cn1 : canNotify none t1 env1.notifyCooldown = true := rfl
  refine ⟨?_, ?_, ?_, ?_, ?_⟩
  · rw [u1]
    dsimp only
    simp [cn1, hn1, countReclaimedNotifs, startRetryLoop_no_reclaimed]
  · rw [u1]
    dsimp only
    simp [cn1]
  · intro hle
    have cn2 : canNotify (some t1) t2 env2.notifyCooldown = false := by
      rw [hcd2]
      simp only [canNotify, decide_eq_false_iff_not]
      omega
    rw [u2]
    dsimp only
    constructor
    · simp [cn2, countReclaimedNotifs, startRetryLoop_no_reclaimed]
    · simp [cn2]
  · intro hlt
    have cn2 : canNotify (some t1) t2 env2.notifyCooldown = true := by
      rw [hcd2]
      simp only [canNotify, decide_eq_true_eq]
      omega
    rw [u2]
    dsimp only
    constructor
    · simp [cn2, hn2, countReclaimedNotifs, startRetryLoop_no_reclaimed]
    · simp [cn2]
  · intro env3 ln t hb3 hs3 hcn
    rw [checkInstance_stopped env3 inst latch ln t hb3 hs3]
    dsimp only
    simp [hcn]

/-- Closed instantiation of C4: cooldown 300, triggers at 1000 and 1100
(within the window, one alert in total), then at 1301 (beyond the window,
alerting again and re-recording). -/
theorem checkInstance_cooldown_witness :
    countReclaimedNotifs (checkInstance checkEnvW instA ⟨false, false⟩
      none 1000).1 = 1 ∧
    countReclaimedNotifs (checkInstance checkEnvW instA ⟨false, false⟩
      (some 1000) 1100).1 = 0 ∧
    countReclaimedNotifs (checkInstance checkEnvW instA ⟨false, false⟩
      (some 1000) 1301).1 = 1 ∧
    (checkInstance checkEnvW instA ⟨false, false⟩ (some 1000) 1301).2.2 =
      some 1301 := by
  have h1 := checkInstance_cooldown checkEnvW checkEnvW instA ⟨false, false⟩
    1000 1100 300 rfl rfl rfl rfl rfl rfl rfl rfl
  have h2 := checkInstance_cooldown checkEnvW checkEnvW instA ⟨false, false⟩
    1000 1301 300 rfl rfl rfl rfl rfl rfl rfl rfl
  exact ⟨h1.1, (h1.2.2.1 (by omega)).1, (h2.2.2.2.1 (by omega)).1,
    (h2.2.2.2.1 (by omega)).2⟩

end SpotMonitor
